/-
  Verification of the gravitorch trainer core against its specification.

  Shallow embedding of the meter, history, condition, timing and
  training-loop components.  Python floats are modelled as exact
  rationals; fallible accessors return Except values mirroring the
  raised exceptions.
-/
import Mathlib

namespace Gravitorch

/-- Errors raised by meters and histories (gravitorch.utils.meters.exceptions
and gravitorch.utils.history.base). -/
inductive MeterError where
  | emptyMeter : MeterError
  | emptyHistory : MeterError
  deriving DecidableEq, Repr

/-! ## AverageMeter (src/gravitorch/utils/meters/average.py)

State is `{total: float, count: int}`; floats are modelled as rationals. -/

structure AverageMeter where
  total : ℚ
  count : ℤ
  deriving DecidableEq, Repr

/-- `AverageMeter.__init__` with its default arguments `total=0.0, count=0`. -/
def AverageMeter.empty : AverageMeter := ⟨0, 0⟩

/-- `AverageMeter.update(value, num_examples)`:
`self._total += float(value) * num_examples; self._count += num_examples`. -/
def AverageMeter.update (m : AverageMeter) (value : ℚ) (num_examples : ℤ) :
    AverageMeter :=
  ⟨m.total + value * num_examples, m.count + num_examples⟩

/-- Apply a sequence of `update` calls, one `(value, num_examples)` pair per
call, in order. -/
def AverageMeter.applyUpdates (m : AverageMeter) (us : List (ℚ × ℤ)) :
    AverageMeter :=
  us.foldl (fun acc u => acc.update u.1 u.2) m

/-- `AverageMeter.average()`: raises `EmptyMeterError` when `self._count` is
falsy (zero), otherwise returns `self._total / float(self._count)`. -/
def AverageMeter.average (m : AverageMeter) : Except MeterError ℚ :=
  if m.count = 0 then .error .emptyMeter else .ok (m.total / (m.count : ℚ))

/-- `AverageMeter.sum()`: raises `EmptyMeterError` when `self._count` is
zero, otherwise returns `self._total`. -/
def AverageMeter.sum (m : AverageMeter) : Except MeterError ℚ :=
  if m.count = 0 then .error .emptyMeter else .ok m.total

/-- `AverageMeter.merge(meters)`: folds the iterable, summing counts and
totals onto the current meter, and returns a new meter. -/
def AverageMeter.merge (m : AverageMeter) (meters : List AverageMeter) :
    AverageMeter :=
  meters.foldl (fun acc x => ⟨acc.total + x.total, acc.count + x.count⟩) m

/-- `AverageMeter.state_dict()`: returns the flat mapping
with keys `count` and `total`. -/
def AverageMeter.state_dict (m : AverageMeter) : ℤ × ℚ :=
  (m.count, m.total)

/-- `AverageMeter.load_state_dict(state_dict)`: overwrites both fields from
the mapping. -/
def AverageMeter.load_state_dict (_m : AverageMeter) (sd : ℤ × ℚ) :
    AverageMeter :=
  ⟨sd.2, sd.1⟩

/-- `AverageMeter.equal(other)`: state-dict comparison between two meters of
the same class. -/
def AverageMeter.equalMeter (m other : AverageMeter) : Bool :=
  m.state_dict = other.state_dict

/-- Total over a list of `(value, num_examples)` updates:
the sum of `value * num_examples`. -/
def updatesTotal (us : List (ℚ × ℤ)) : ℚ :=
  (us.map (fun u => u.1 * (u.2 : ℚ))).sum

/-- Count over a list of `(value, num_examples)` updates:
the sum of `num_examples`. -/
def updatesCount (us : List (ℚ × ℤ)) : ℤ :=
  (us.map (fun u => u.2)).sum

theorem applyUpdates_state (m : AverageMeter) (us : List (ℚ × ℤ)) :
    m.applyUpdates us = ⟨m.total + updatesTotal us, m.count + updatesCount us⟩ := by
  induction us generalizing m with
  | nil => simp [AverageMeter.applyUpdates, updatesTotal, updatesCount]
  | cons u us ih =>
      simp only [AverageMeter.applyUpdates, List.foldl_cons] at *
      rw [ih]
      simp [AverageMeter.update, updatesTotal, updatesCount]
      ring_nf
      constructor <;> ring

theorem merge_state (m : AverageMeter) (ms : List AverageMeter) :
    m.merge ms = ⟨m.total + (ms.map AverageMeter.total).sum,
                  m.count + (ms.map AverageMeter.count).sum⟩ := by
  induction ms generalizing m with
  | nil => simp [AverageMeter.merge]
  | cons x ms ih =>
      simp only [AverageMeter.merge, List.foldl_cons] at *
      rw [ih]
      simp
      constructor <;> ring

/-- C4: starting from an empty meter, after any sequence of
`update(value, num_examples)` calls the meter holds `total` equal to the sum
of `value * num_examples` and `count` equal to the sum of `num_examples`;
when `count > 0`, `average()` returns exactly `total / count`, and when
`count == 0` both `average()` and `sum()` raise `EmptyMeterError` instead of
returning a default. -/
theorem averageMeter_average_contract (us : List (ℚ × ℤ)) :
    ((AverageMeter.empty.applyUpdates us).total = updatesTotal us ∧
      (AverageMeter.empty.applyUpdates us).count = updatesCount us) ∧
    (0 < (AverageMeter.empty.applyUpdates us).count →
      (AverageMeter.empty.applyUpdates us).average =
        .ok ((AverageMeter.empty.applyUpdates us).total /
          ((AverageMeter.empty.applyUpdates us).count : ℚ))) ∧
    ((AverageMeter.empty.applyUpdates us).count = 0 →
      (AverageMeter.empty.applyUpdates us).average = .error .emptyMeter ∧
      (AverageMeter.empty.applyUpdates us).sum = .error .emptyMeter) := by
  refine ⟨?_, ?_, ?_⟩
  · rw [applyUpdates_state]
    simp [AverageMeter.empty]
  · intro h
    rw [AverageMeter.average, if_neg (by omega)]
  · intro h
    rw [AverageMeter.average, if_pos h, AverageMeter.sum, if_pos h]
    exact ⟨rfl, rfl⟩

/-- Witness for C4 at concrete inputs: two updates `(2,1)` and `(4,1)` give
average 3; no updates give `EmptyMeterError` from both accessors. -/
theorem averageMeter_average_contract_witness :
    (AverageMeter.empty.applyUpdates [(2, 1), (4, 1)]).average = .ok 3 ∧
    (AverageMeter.empty.applyUpdates []).average = .error .emptyMeter := by
  constructor
  · have h := (averageMeter_average_contract [(2, 1), (4, 1)]).2.1 (by decide)
    rw [h, applyUpdates_state]
    norm_num [AverageMeter.empty, updatesTotal, updatesCount]
  · exact ((averageMeter_average_contract []).2.2 (by decide)).1

/-! ## TensorMeter2 (src/gravitorch/utils/meters/tensor.py)

The meter stores a lazily flattened tensor of all observed values plus an
integer count.  The flattened tensor is modelled as a list of rationals. -/

structure TensorMeter2 where
  values : List ℚ
  count : ℕ
  deriving DecidableEq, Repr

/-- `TensorMeter2.__init__(values)`: wraps the values in a
`LazyFlattedTensor` and sets `self._count = self._values.numel()`. -/
def TensorMeter2.init (values : List ℚ) : TensorMeter2 :=
  ⟨values, values.length⟩

/-- `TensorMeter2.update(tensor)`: appends the flattened tensor to the
stored values and adds `tensor.numel()` to the count. -/
def TensorMeter2.update (m : TensorMeter2) (tensor : List ℚ) : TensorMeter2 :=
  ⟨m.values ++ tensor, m.count + tensor.length⟩

/-- `TensorMeter2.state_dict()`: the mapping with the single key `values`
holding the flattened value tensor. -/
def TensorMeter2.state_dict (m : TensorMeter2) : List ℚ :=
  m.values

/-- `TensorMeter2.load_state_dict(state_dict)`: replaces `self._values` with
a `LazyFlattedTensor` built from the stored tensor; `self._count` is not
assigned. -/
def TensorMeter2.load_state_dict (m : TensorMeter2) (sd : List ℚ) :
    TensorMeter2 :=
  { m with values := sd }

/-- `TensorMeter2.equal(other)`: comparison of the two state dicts. -/
def TensorMeter2.equalMeter (m other : TensorMeter2) : Bool :=
  m.state_dict = other.state_dict

/-- `TensorMeter2.mean()`: raises `EmptyMeterError` when `self._count` is
zero, otherwise returns the mean of the stored value tensor. -/
def TensorMeter2.mean (m : TensorMeter2) : Except MeterError ℚ :=
  if m.count = 0 then .error .emptyMeter
  else .ok (m.values.sum / (m.values.length : ℚ))

/-- C7 fails on `TensorMeter2`: take `Y` to be a fresh meter after one
`update([1])` (so `Y.count = 1`) and `X` a fresh meter after
`load_state_dict(Y.state_dict())`.  Then `X.equal(Y)` is true (equality
compares only the state dicts, which hold only the values), yet `X` is not
an exact reconstruction of `Y`: `X.count = 0`, so `X ≠ Y` and `X.mean()`
raises `EmptyMeterError` while `Y.mean()` returns 1. -/
theorem tensorMeter2_roundtrip_counterexample :
    ((TensorMeter2.init []).load_state_dict
        (((TensorMeter2.init []).update [1]).state_dict)).equalMeter
      ((TensorMeter2.init []).update [1]) = true ∧
    ((TensorMeter2.init []).load_state_dict
        (((TensorMeter2.init []).update [1]).state_dict)).count = 0 ∧
    ((TensorMeter2.init []).update [1]).count = 1 ∧
    ((TensorMeter2.init []).load_state_dict
        (((TensorMeter2.init []).update [1]).state_dict)) ≠
      ((TensorMeter2.init []).update [1]) ∧
    ((TensorMeter2.init []).load_state_dict
        (((TensorMeter2.init []).update [1]).state_dict)).mean =
      .error .emptyMeter ∧
    ((TensorMeter2.init []).update [1]).mean = .ok 1 := by
  refine ⟨by decide, rfl, rfl, ?_, rfl, ?_⟩
  · intro h
    have := congrArg TensorMeter2.count h
    simp [TensorMeter2.init, TensorMeter2.load_state_dict, TensorMeter2.update] at this
  · rw [TensorMeter2.mean, if_neg (by decide)]
    norm_num [TensorMeter2.init, TensorMeter2.update]

/-- C7 (amended): for `AverageMeter` the round-trip is exact — loading
`Y.state_dict()` into a fresh meter reconstructs `Y` itself, and the two
compare equal under `.equal` — while for `TensorMeter2` the loaded meter
compares equal to `Y` under `.equal` (which inspects only the state dicts)
and carries `Y`'s values, but its `count` stays at the fresh value 0, so the
state dict is not sufficient to reconstruct the instance exactly. -/
theorem meter_state_dict_roundtrip (y : AverageMeter) (t : TensorMeter2) :
    (AverageMeter.empty.load_state_dict y.state_dict = y ∧
      (AverageMeter.empty.load_state_dict y.state_dict).equalMeter y = true) ∧
    (((TensorMeter2.init []).load_state_dict t.state_dict).equalMeter t = true ∧
      ((TensorMeter2.init []).load_state_dict t.state_dict).values = t.values ∧
      ((TensorMeter2.init []).load_state_dict t.state_dict).count = 0) := by
  refine ⟨⟨rfl, ?_⟩, ⟨?_, rfl, rfl⟩⟩
  · simp [AverageMeter.equalMeter, AverageMeter.load_state_dict,
      AverageMeter.state_dict]
  · simp [TensorMeter2.equalMeter, TensorMeter2.state_dict,
      TensorMeter2.load_state_dict]

/-- C10: `TensorMeter2.load_state_dict` replaces the stored values with the
loaded tensor and leaves `count` unchanged; loading a non-empty state into a
freshly constructed meter therefore leaves `count = 0` and `mean()` still
raises `EmptyMeterError` even though values are present. -/
theorem tensorMeter2_load_state_dict_frame (m : TensorMeter2) (sd : List ℚ) :
    (m.load_state_dict sd).values = sd ∧
    (m.load_state_dict sd).count = m.count ∧
    ((TensorMeter2.init []).load_state_dict sd).count = 0 ∧
    ((TensorMeter2.init []).load_state_dict sd).mean = .error .emptyMeter :=
  ⟨rfl, rfl, rfl, rfl⟩

/-- C5: `merge` sums counts and totals — merging `(count=5, total=10)` with
`(count=3, total=9)` yields `(count=8, total=19)` with average `19/8 = 2.375`
— and the merged `(count, total)` is invariant under permuting the merged
collection and under regrouping a merge into two successive merges. -/
theorem averageMeter_merge_contract (m : AverageMeter)
    (ms ms' l₁ l₂ : List AverageMeter) (h : ms.Perm ms') :
    ((AverageMeter.mk 10 5).merge [AverageMeter.mk 9 3] = AverageMeter.mk 19 8 ∧
      ((AverageMeter.mk 10 5).merge [AverageMeter.mk 9 3]).average = .ok (19 / 8) ∧
      (19 : ℚ) / 8 = 2.375) ∧
    m.merge ms' = m.merge ms ∧
    (m.merge l₁).merge l₂ = m.merge (l₁ ++ l₂) := by
  have hm : (AverageMeter.mk 10 5).merge [AverageMeter.mk 9 3] = AverageMeter.mk 19 8 := by
    rw [merge_state]
    norm_num
  refine ⟨⟨hm, ?_, by norm_num⟩, ?_, ?_⟩
  · rw [hm, AverageMeter.average, if_neg (by decide)]
    norm_num
  · rw [merge_state, merge_state]
    have ht : (ms'.map AverageMeter.total).sum = (ms.map AverageMeter.total).sum :=
      (h.map AverageMeter.total).symm.sum_eq
    have hc : (ms'.map AverageMeter.count).sum = (ms.map AverageMeter.count).sum :=
      (h.map AverageMeter.count).symm.sum_eq
    rw [ht, hc]
  · rw [merge_state, merge_state, merge_state]
    simp
    constructor <;> ring

/-- Witness for C5: permuting a two-element merge list leaves the merged
meter unchanged. -/
theorem averageMeter_merge_contract_witness :
    AverageMeter.empty.merge [AverageMeter.mk 1 1, AverageMeter.mk 2 3] =
      AverageMeter.empty.merge [AverageMeter.mk 2 3, AverageMeter.mk 1 1] :=
  (averageMeter_merge_contract AverageMeter.empty
    [AverageMeter.mk 2 3, AverageMeter.mk 1 1]
    [AverageMeter.mk 1 1, AverageMeter.mk 2 3] [] []
    (List.Perm.swap _ _ _)).2.1

/-! ## GenericHistory (src/gravitorch/utils/history/generic.py)

The retained window is a `deque(..., maxlen=max_size)`: appending to a full
deque evicts the oldest element.  A deque of capacity `n` holding the
elements of `l` is the suffix of `l` of length at most `n`. -/

/-- The last `n` elements of a list, in order: the contents of
`deque(l, maxlen=n)`. -/
def takeRight (n : ℕ) (l : List α) : List α :=
  l.drop (l.length - n)

theorem takeRight_length (n : ℕ) (l : List α) :
    (takeRight n l).length = min l.length n := by
  simp [takeRight]
  omega

theorem takeRight_takeRight (n : ℕ) (l : List α) :
    takeRight n (takeRight n l) = takeRight n l := by
  unfold takeRight
  rw [List.length_drop]
  have h0 : l.length - (l.length - n) - n = 0 := by omega
  rw [h0, List.drop_zero]

theorem takeRight_idem_append (n : ℕ) (xs ys : List α) :
    takeRight n (takeRight n xs ++ ys) = takeRight n (xs ++ ys) := by
  unfold takeRight
  rcases le_or_lt n xs.length with h | h
  · have hdrop : xs.drop (xs.length - n) ++ ys = (xs ++ ys).drop (xs.length - n) := by
      rw [List.drop_append_of_le_length (by omega)]
    rw [hdrop, List.drop_drop]
    congr 1
    simp [List.length_drop]
    omega
  · have : xs.length - n = 0 := by omega
    rw [this, List.drop_zero]

/-- `GenericHistory.__init__(name, elements, max_size)`: raises `ValueError`
when `max_size <= 0`, otherwise stores `deque(elements, maxlen=max_size)`. -/
structure GenericHistory (V : Type) where
  name : String
  history : List (Option ℤ × V)
  max_size : ℕ

def genericHistoryInit (name : String) (elements : List (Option ℤ × V))
    (max_size : ℤ) : Except String (GenericHistory V) :=
  if max_size ≤ 0 then .error "History size must be greater than 0!"
  else .ok ⟨name, takeRight max_size.toNat elements, max_size.toNat⟩

/-- `GenericHistory.add_value(value, step)`: appends `(step, value)` to the
deque, evicting the oldest entry when the deque is full. -/
def GenericHistory.add_value (h : GenericHistory V) (value : V)
    (step : Option ℤ) : GenericHistory V :=
  { h with history := takeRight h.max_size (h.history ++ [(step, value)]) }

/-- `GenericHistory.get_recent_history()`: the retained window as a tuple. -/
def GenericHistory.get_recent_history (h : GenericHistory V) :
    List (Option ℤ × V) :=
  h.history

/-- Apply a sequence of `add_value` calls, one `(step, value)` pair per
call, in order. -/
def GenericHistory.addValues (h : GenericHistory V)
    (ps : List (Option ℤ × V)) : GenericHistory V :=
  ps.foldl (fun acc p => acc.add_value p.2 p.1) h

theorem addValues_history (h : GenericHistory V) (ps : List (Option ℤ × V))
    (hh : h.history = takeRight h.max_size h.history) :
    (h.addValues ps).history = takeRight h.max_size (h.history ++ ps) ∧
    (h.addValues ps).max_size = h.max_size ∧ (h.addValues ps).name = h.name := by
  induction ps generalizing h with
  | nil =>
      refine ⟨?_, rfl, rfl⟩
      simpa [GenericHistory.addValues] using hh
  | cons p ps ih =>
      have step : (h.add_value p.2 p.1).history =
          takeRight h.max_size (h.history ++ [p]) := rfl
      have hmax : (h.add_value p.2 p.1).max_size = h.max_size := rfl
      have hinv : (h.add_value p.2 p.1).history =
          takeRight (h.add_value p.2 p.1).max_size (h.add_value p.2 p.1).history := by
        rw [step, hmax]
        exact (takeRight_takeRight _ _).symm
      have := ih (h.add_value p.2 p.1) hinv
      refine ⟨?_, this.2.1.trans hmax, this.2.2⟩
      rw [show h.addValues (p :: ps) = (h.add_value p.2 p.1).addValues ps from rfl,
        this.1, step, hmax, takeRight_idem_append]
      simp

/-- C8: constructing a `GenericHistory` with `max_size <= 0` raises
`ValueError`; for `max_size = m >= 1`, after any sequence of `n` `add_value`
calls on an initially empty history the retained window is exactly the last
`min(n, m)` `(step, value)` pairs in insertion order (the suffix of the
insertion sequence, oldest evicted first); in particular a history of
capacity 2 after three `add_value` calls keeps only the two most recent
pairs. -/
theorem genericHistory_eviction (name : String) (m : ℤ)
    (ps : List (Option ℤ × ℚ)) (hm : 0 < m) :
    (∀ m₀ : ℤ, m₀ ≤ 0 → (genericHistoryInit name ([] : List (Option ℤ × ℚ)) m₀) =
      .error "History size must be greater than 0!") ∧
    (genericHistoryInit name ([] : List (Option ℤ × ℚ)) m =
      .ok ⟨name, [], m.toNat⟩) ∧
    ((GenericHistory.mk name ([] : List (Option ℤ × ℚ)) m.toNat).addValues ps).history =
      ps.drop (ps.length - m.toNat) ∧
    (((GenericHistory.mk name ([] : List (Option ℤ × ℚ)) m.toNat).addValues ps).history).length =
      min ps.length m.toNat ∧
    ((GenericHistory.mk name ([] : List (Option ℤ × ℚ)) 2).addValues
      [(some 0, 1), (some 1, 2), (some 2, 3)]).get_recent_history =
      [(some 1, 2), (some 2, 3)] := by
  refine ⟨?_, ?_, ?_, ?_, ?_⟩
  · intro m₀ hm₀
    rw [genericHistoryInit, if_pos hm₀]
  · rw [genericHistoryInit, if_neg (by omega)]
    simp [takeRight]
  · have := (addValues_history (GenericHistory.mk name [] m.toNat) ps (by
      simp [takeRight])).1
    rw [this]
    simp [takeRight]
  · have := (addValues_history (GenericHistory.mk name [] m.toNat) ps (by
      simp [takeRight])).1
    rw [this]
    simp [takeRight_length]
  · rfl

/-- Witness for C8: capacity 2 with three insertions retains the two most
recent pairs, and `max_size = 0` is rejected at construction. -/
theorem genericHistory_eviction_witness :
    ((GenericHistory.mk "loss" ([] : List (Option ℤ × ℚ)) (2 : ℤ).toNat).addValues
      [(some 0, 1), (some 1, 2), (some 2, 3)]).history =
      [(some 1, 2), (some 2, 3)] ∧
    (genericHistoryInit "loss" ([] : List (Option ℤ × ℚ)) 0) =
      .error "History size must be greater than 0!" := by
  have h := genericHistory_eviction "loss" 2
    [(some 0, 1), (some 1, 2), (some 2, 3)] (by norm_num)
  exact ⟨h.2.2.1.trans (by decide), h.1 0 (by norm_num)⟩

/-! ## PeriodicCondition (gravitorch.utils.events.conditions)

The implementation module is not part of the source tree here; only its
unit tests (tests/unit/utils/events/test_conditions.py) and callers are. -/

/-- Modelled from the spec: the implementation of
`gravitorch.utils.events.PeriodicCondition` is missing from the source tree.
The spec describes it as a pure counter starting at call 0 that advances on
every invocation and is true exactly every `freq`-th call (1-indexed: calls
1, `freq+1`, `2*freq+1`, ...), matching the unit tests, which expect
`freq=3` to yield `[T,F,F,T,F,F,T,F,F,T]` over 10 calls. -/
structure PeriodicCondition where
  freq : ℕ
  counter : ℕ

/-- Modelled from the spec: `PeriodicCondition(freq)` starts with its
counter at 0. -/
def PeriodicCondition.init (freq : ℕ) : PeriodicCondition :=
  ⟨freq, 0⟩

/-- Modelled from the spec: one invocation returns
`counter % freq == 0` for the pre-call counter and then advances the
counter, so the first call observes counter 0. -/
def PeriodicCondition.call (c : PeriodicCondition) : Bool × PeriodicCondition :=
  (c.counter % c.freq == 0, ⟨c.freq, c.counter + 1⟩)

/-- The list of results of `n` successive invocations of the condition. -/
def PeriodicCondition.calls (c : PeriodicCondition) : ℕ → List Bool
  | 0 => []
  | n + 1 =>
      let r := c.call
      r.1 :: r.2.calls n

/-- The condition described by the claim's own words: an internal counter
that starts at 1 on the first call, advances on every invocation, and whose
invocation returns `counter % freq == 0`. -/
def periodicConditionClaimedCalls (freq : ℕ) : ℕ → ℕ → List Bool
  | _, 0 => []
  | counter, n + 1 => (counter % freq == 0) :: periodicConditionClaimedCalls freq (counter + 1) n

theorem periodicCondition_calls_get (c : PeriodicCondition) (n i : ℕ)
    (hi : i < n) :
    (c.calls n).get ⟨i, by
      induction n generalizing c i with
      | zero => omega
      | succ n ih =>
          simp only [PeriodicCondition.calls, List.length_cons]
          rcases i with _ | i
          · omega
          · have := ih c.call.2 i (by omega)
            omega⟩ = ((c.counter + i) % c.freq == 0) := by
  induction n generalizing c i with
  | zero => omega
  | succ n ih =>
      rcases i with _ | i
      · simp [PeriodicCondition.calls, PeriodicCondition.call]
      · have := ih c.call.2 i (by omega)
        simp only [PeriodicCondition.calls, List.get_cons_succ] at *
        rw [this]
        have harg : c.call.2.counter + i = c.counter + (i + 1) := by
          simp [PeriodicCondition.call]
          omega
        rw [harg]
        rfl

/-- C2 counterexample: under the claim's stated mechanism — counter starting
at 1 on the first call, returning true when `counter % freq == 0` — a
`freq=3` condition over 10 calls yields `[F,F,T,F,F,T,F,F,T,F]`, not the
`[T,F,F,T,F,F,T,F,F,T]` the claim (and the unit test) require; the modelled
condition, whose counter starts at 0, yields the required sequence. -/
theorem periodicCondition_counterexample :
    periodicConditionClaimedCalls 3 1 10 =
      [false, false, true, false, false, true, false, false, true, false] ∧
    periodicConditionClaimedCalls 3 1 10 ≠
      [true, false, false, true, false, false, true, false, false, true] ∧
    (PeriodicCondition.init 3).calls 10 =
      [true, false, false, true, false, false, true, false, false, true] := by
  refine ⟨by decide, by decide, by decide⟩

/-- C2 (amended): `PeriodicCondition(freq)` advances an internal counter on
every invocation and returns true exactly when `counter % freq == 0`, with
the counter starting at 0 on the first call — hence true on calls 1,
`freq+1`, `2*freq+1`, ... — so for every `freq >= 1` the `i`-th call
(0-indexed) returns `i % freq == 0`, and `freq=3` over 10 calls yields
exactly `[T,F,F,T,F,F,T,F,F,T]`. -/
theorem periodicCondition_period (freq n : ℕ) (_hfreq : 1 ≤ freq) :
    (∀ i, (hi : i < n) → ((PeriodicCondition.init freq).calls n).get ⟨i, by
      have : ∀ (c : PeriodicCondition) (k : ℕ), (c.calls k).length = k := by
        intro c k
        induction k generalizing c with
        | zero => rfl
        | succ k ih => simp [PeriodicCondition.calls, ih]
      rw [this]
      omega⟩ = (i % freq == 0)) ∧
    (PeriodicCondition.init 3).calls 10 =
      [true, false, false, true, false, false, true, false, false, true] := by
  constructor
  · intro i hi
    have := periodicCondition_calls_get (PeriodicCondition.init freq) n i hi
    rw [this]
    simp [PeriodicCondition.init]
  · decide

/-- Witness for C2: with `freq = 3`, the fourth call (index 3) returns true
and the fifth (index 4) returns false. -/
theorem periodicCondition_period_witness :
    ((PeriodicCondition.init 3).calls 10).get ⟨3, by decide⟩ = true ∧
    ((PeriodicCondition.init 3).calls 10).get ⟨4, by decide⟩ = false := by
  have h := periodicCondition_period 3 10 (by decide)
  constructor
  · rw [h.1 3 (by decide)]
    decide
  · rw [h.1 4 (by decide)]
    decide

/-! ## VanillaTrainingLoop (src/gravitorch/loops/training/vanilla.py)

`_train_one_batch` is modelled as a trace semantics: the list of side
effects the method performs, in order, together with its return value. -/

/-- The engine lifecycle events fired by `_train_one_batch`. -/
inductive EngineEvent where
  | trainIterationStarted : EngineEvent
  | trainForwardCompleted : EngineEvent
  | trainBackwardCompleted : EngineEvent
  | trainIterationCompleted : EngineEvent
  deriving DecidableEq, Repr

/-- The side effects of `_train_one_batch`, in program order. -/
inductive TrainEffect where
  | fireEvent (e : EngineEvent) : TrainEffect
  | zeroGrad (setGradToNone : Bool) : TrainEffect
  | forwardPass : TrainEffect
  | logWarning : TrainEffect
  | backwardPass : TrainEffect
  | clipGrad : TrainEffect
  | optimizerStep : TrainEffect
  deriving DecidableEq, Repr

/-- The model output dict: whether `output[ct.LOSS]` is NaN, plus the loss
payload and the rest of the dict, abstracted. -/
structure ModelOutput where
  lossIsNaN : Bool
  payload : ℕ
  deriving DecidableEq, Repr

/-- `VanillaTrainingLoop._train_one_batch`: fire `TRAIN_ITERATION_STARTED`;
`optimizer.zero_grad(set_grad_to_none)`; run the forward pass; fire
`TRAIN_FORWARD_COMPLETED`; if `torch.isnan(loss)`, log a warning, fire
`TRAIN_ITERATION_COMPLETED` and return the output; otherwise
`loss.backward()`, apply `self._clip_grad_fn` when configured, fire
`TRAIN_BACKWARD_COMPLETED`, `optimizer.step()`, fire
`TRAIN_ITERATION_COMPLETED` and return the output. -/
def trainOneBatch (setGradToNone hasClipGradFn : Bool) (output : ModelOutput) :
    List TrainEffect × ModelOutput :=
  let head : List TrainEffect :=
    [.fireEvent .trainIterationStarted, .zeroGrad setGradToNone, .forwardPass,
     .fireEvent .trainForwardCompleted]
  if output.lossIsNaN then
    (head ++ [.logWarning, .fireEvent .trainIterationCompleted], output)
  else
    (head ++ [.backwardPass] ++ (if hasClipGradFn then [.clipGrad] else []) ++
      [.fireEvent .trainBackwardCompleted, .optimizerStep,
       .fireEvent .trainIterationCompleted], output)

/-- The sequence of events fired along a trace. -/
def firedEvents (tr : List TrainEffect) : List EngineEvent :=
  tr.filterMap (fun e =>
    match e with
    | .fireEvent ev => some ev
    | _ => none)

/-- `a` occurs strictly before (the first occurrence of a and then) `b` in
the trace: the trace has a first occurrence of `a` and `b` occurs somewhere
after it. -/
def occursBefore (a b : TrainEffect) : List TrainEffect → Bool
  | [] => false
  | x :: xs => if x = a then xs.contains b else occursBefore a b xs

/-- C1: when the model output loss is NaN, `_train_one_batch` fires exactly
`TRAIN_ITERATION_STARTED`, `TRAIN_FORWARD_COMPLETED`,
`TRAIN_ITERATION_COMPLETED` in that order (never
`TRAIN_BACKWARD_COMPLETED`), performs no backward pass, no gradient
clipping and no optimizer step, and still returns the model output dict. -/
theorem trainOneBatch_nan_guard (setGradToNone hasClipGradFn : Bool)
    (out : ModelOutput) (h : out.lossIsNaN = true) :
    firedEvents (trainOneBatch setGradToNone hasClipGradFn out).1 =
      [.trainIterationStarted, .trainForwardCompleted, .trainIterationCompleted] ∧
    TrainEffect.backwardPass ∉ (trainOneBatch setGradToNone hasClipGradFn out).1 ∧
    TrainEffect.clipGrad ∉ (trainOneBatch setGradToNone hasClipGradFn out).1 ∧
    TrainEffect.optimizerStep ∉ (trainOneBatch setGradToNone hasClipGradFn out).1 ∧
    (trainOneBatch setGradToNone hasClipGradFn out).2 = out := by
  have htr : trainOneBatch setGradToNone hasClipGradFn out =
      ([.fireEvent .trainIterationStarted, .zeroGrad setGradToNone, .forwardPass,
        .fireEvent .trainForwardCompleted, .logWarning,
        .fireEvent .trainIterationCompleted], out) := by
    rw [trainOneBatch]
    simp [h]
  rw [htr]
  refine ⟨rfl, ?_, ?_, ?_, rfl⟩ <;> simp [firedEvents]

/-- Witness for C1: a concrete NaN output with both flags set. -/
theorem trainOneBatch_nan_guard_witness :
    firedEvents (trainOneBatch true true ⟨true, 7⟩).1 =
      [.trainIterationStarted, .trainForwardCompleted, .trainIterationCompleted] ∧
    (trainOneBatch true true ⟨true, 7⟩).2 = ⟨true, 7⟩ := by
  have h := trainOneBatch_nan_guard true true ⟨true, 7⟩ rfl
  exact ⟨h.1, h.2.2.2.2⟩

/-- C3 counterexample: on a non-NaN batch with a configured clipping
function, the concrete trace of `_train_one_batch` applies the clipping
function *before* firing `TRAIN_BACKWARD_COMPLETED`: the clipping effect
precedes the event in the trace, and the event does not precede the
clipping, contradicting the claimed order. -/
theorem trainOneBatch_clip_order_counterexample :
    (trainOneBatch false true ⟨false, 0⟩).1 =
      [.fireEvent .trainIterationStarted, .zeroGrad false, .forwardPass,
       .fireEvent .trainForwardCompleted, .backwardPass, .clipGrad,
       .fireEvent .trainBackwardCompleted, .optimizerStep,
       .fireEvent .trainIterationCompleted] ∧
    occursBefore .clipGrad (.fireEvent .trainBackwardCompleted)
      (trainOneBatch false true ⟨false, 0⟩).1 = true ∧
    occursBefore (.fireEvent .trainBackwardCompleted) .clipGrad
      (trainOneBatch false true ⟨false, 0⟩).1 = false := by
  refine ⟨by decide, by decide, by decide⟩

/-- C3 (amended): in the non-NaN case with a configured clipping function,
the per-iteration effect order is: backward pass, then the clipping
function, then fire `TRAIN_BACKWARD_COMPLETED`, then the optimizer step,
then fire `TRAIN_ITERATION_COMPLETED` — i.e. gradient clipping is applied
*before* the backward-completed event is fired. -/
theorem trainOneBatch_effect_order (setGradToNone : Bool) (out : ModelOutput)
    (h : out.lossIsNaN = false) :
    (trainOneBatch setGradToNone true out).1 =
      [.fireEvent .trainIterationStarted, .zeroGrad setGradToNone,
       .forwardPass, .fireEvent .trainForwardCompleted, .backwardPass,
       .clipGrad, .fireEvent .trainBackwardCompleted, .optimizerStep,
       .fireEvent .trainIterationCompleted] ∧
    (trainOneBatch setGradToNone true out).2 = out := by
  rw [trainOneBatch]
  simp [h]

/-- Witness for C3: the amended order at a concrete non-NaN output. -/
theorem trainOneBatch_effect_order_witness :
    (trainOneBatch true true ⟨false, 3⟩).2 = ⟨false, 3⟩ :=
  (trainOneBatch_effect_order true ⟨false, 3⟩ rfl).2

/-! ## Gradient-clipping configuration resolution
(src/gravitorch/loops/training/vanilla.py `_setup_clip_grad`, called from
src/gravitorch/loops/training/basic.py `BaseBasicTrainingLoop.__init__`). -/

/-- The `clip_grad` configuration dict: the mandatory `name` key plus the
optional numeric keys read by `_setup_clip_grad`. -/
structure ClipGradConfig where
  name : String
  clip_value : Option ℚ
  max_norm : Option ℚ
  norm_type : Option ℚ

/-- The two torch clipping callables the resolution can produce. -/
inductive ClipGradFn where
  | clipGradValue : ClipGradFn
  | clipGradNorm : ClipGradFn
  deriving DecidableEq, Repr

/-- `VanillaTrainingLoop._setup_clip_grad(clip_grad)`: an empty/absent dict
resolves to `(None, ())`; `clip_grad_value` resolves to
`torch.nn.utils.clip_grad_value_` with `(clip_grad.get("clip_value", 0.25),)`;
`clip_grad_norm` resolves to `torch.nn.utils.clip_grad_norm_` with
`(clip_grad.get("max_norm", 1), clip_grad.get("norm_type", 2))`; any other
name raises `ValueError`. -/
def setupClipGrad (clip_grad : Option ClipGradConfig) :
    Except String (Option ClipGradFn × List ℚ) :=
  match clip_grad with
  | none => .ok (none, [])
  | some cfg =>
      if cfg.name = "clip_grad_value" then
        .ok (some .clipGradValue, [cfg.clip_value.getD (1 / 4)])
      else if cfg.name = "clip_grad_norm" then
        .ok (some .clipGradNorm, [cfg.max_norm.getD 1, cfg.norm_type.getD 2])
      else
        .error "Incorrect clip grad name"

/-- The state `BaseBasicTrainingLoop.__init__` builds before any batch can
be processed: the tag plus the resolved clipping function and arguments. -/
structure TrainingLoopState where
  tag : String
  clip_grad_fn : Option ClipGradFn
  clip_grad_args : List ℚ

/-- `BaseBasicTrainingLoop.__init__(tag, clip_grad, ...)`: resolves the
clipping configuration eagerly via `_setup_clip_grad(clip_grad or {})`; a
resolution error escapes the constructor, so no loop object (and hence no
batch processing) ever exists. -/
def trainingLoopInit (tag : String) (clip_grad : Option ClipGradConfig) :
    Except String TrainingLoopState :=
  match setupClipGrad clip_grad with
  | .error e => .error e
  | .ok (fn, args) => .ok ⟨tag, fn, args⟩

/-- C6: `{"name": "clip_grad_value"}` with no `clip_value` resolves to the
value-clipping function with argument tuple `(0.25,)`;
`{"name": "clip_grad_norm"}` with no other parameters resolves to the
norm-clipping function with argument tuple `(1, 2)`; an absent `clip_grad`
configuration resolves to no clipping; and any unrecognized name makes the
constructor raise a `ValueError`, before any batch is processed. -/
theorem setupClipGrad_resolution (tag : String) (cfg : ClipGradConfig)
    (hname : cfg.name ≠ "clip_grad_value" ∧ cfg.name ≠ "clip_grad_norm") :
    setupClipGrad (some ⟨"clip_grad_value", none, none, none⟩) =
      .ok (some .clipGradValue, [1 / 4]) ∧
    setupClipGrad (some ⟨"clip_grad_norm", none, none, none⟩) =
      .ok (some .clipGradNorm, [1, 2]) ∧
    setupClipGrad none = .ok (none, []) ∧
    trainingLoopInit tag (some cfg) = .error "Incorrect clip grad name" ∧
    (1 : ℚ) / 4 = 0.25 := by
  refine ⟨rfl, rfl, rfl, ?_, by norm_num⟩
  rw [trainingLoopInit, setupClipGrad]
  rw [if_neg hname.1, if_neg hname.2]

/-- Witness for C6: the name `"bogus"` is rejected at construction. -/
theorem setupClipGrad_resolution_witness :
    trainingLoopInit "train" (some ⟨"bogus", none, none, none⟩) =
      .error "Incorrect clip grad name" :=
  (setupClipGrad_resolution "train" ⟨"bogus", none, none, none⟩
    (by refine ⟨by decide, by decide⟩)).2.2.2.1

/-! ## BatchLoadingTimer (src/gravitorch/utils/timing.py)

The internal `ScalarMeter` (whose implementation lives outside this tree)
is abstracted to the read accessors `get_stats` consumes: `count`,
`average()`, `max()`, `median()`, `min()`, `std()`. -/

structure ScalarMeterView where
  count : ℕ
  averageVal : ℚ
  maxVal : ℚ
  medianVal : ℚ
  minVal : ℚ
  stdVal : ℚ

/-- The `BatchLoadingTimer` state after iteration: the bounded meter of
per-batch load times plus the start/end timestamps. -/
structure BatchLoadingTimer where
  meter : ScalarMeterView
  start_time : ℚ
  end_time : ℚ
  epoch : ℤ
  logTag : String

/-- `BatchLoadingTimer.get_stats()`: the empty dict when the meter holds no
batches, otherwise the mapping with the nine documented keys. -/
def BatchLoadingTimer.get_stats (t : BatchLoadingTimer) : List (String × ℚ) :=
  if t.meter.count = 0 then []
  else
    let epoch_time_sec := t.end_time - t.start_time
    let iter_time_avg_ms := 1000 * epoch_time_sec / (t.meter.count : ℚ)
    let batch_load_avg_ms := 1000 * t.meter.averageVal
    [("batch_load_time_avg_ms", batch_load_avg_ms),
     ("batch_load_time_max_ms", 1000 * t.meter.maxVal),
     ("batch_load_time_median_ms", 1000 * t.meter.medianVal),
     ("batch_load_time_min_ms", 1000 * t.meter.minVal),
     ("batch_load_time_pct", 100 * batch_load_avg_ms / iter_time_avg_ms),
     ("batch_load_time_stddev_ms", 1000 * t.meter.stdVal),
     ("iter_time_avg_ms", iter_time_avg_ms),
     ("epoch_time_sec", epoch_time_sec),
     ("num_batches", (t.meter.count : ℚ))]

/-- The observable logging actions `log_stats` can perform. -/
inductive LogAction where
  | loggerInfo : LogAction
  | engineLogMetrics (entries : List (String × ℚ)) (epoch : ℤ) : LogAction
  deriving DecidableEq, Repr

/-- `BatchLoadingTimer.log_stats(engine)`: returns immediately (performing
no action) when the meter holds no batches; otherwise emits two
`logger.info` lines and, when an engine is supplied, one
`engine.log_metrics` call with the prefixed stats and the epoch step. -/
def BatchLoadingTimer.log_stats (t : BatchLoadingTimer) (hasEngine : Bool) :
    List LogAction :=
  if t.meter.count = 0 then []
  else
    [.loggerInfo, .loggerInfo] ++
      (if hasEngine then
        [.engineLogMetrics (t.get_stats.map (fun kv => (t.logTag ++ kv.1, kv.2)))
          t.epoch]
      else [])

/-- C9: a `BatchLoadingTimer` whose meter observed zero batches returns the
empty dict from `get_stats()` and performs no logging action (in particular
no `engine.log_metrics` call) from `log_stats()`; with at least one batch
observed, `get_stats()` returns a dict with exactly the nine documented
keys. -/
theorem batchLoadingTimer_empty_guard (t : BatchLoadingTimer)
    (hasEngine : Bool) (h0 : t.meter.count = 0) (t' : BatchLoadingTimer)
    (h1 : 0 < t'.meter.count) :
    t.get_stats = [] ∧
    t.log_stats hasEngine = [] ∧
    t'.get_stats.map Prod.fst =
      ["batch_load_time_avg_ms", "batch_load_time_max_ms",
       "batch_load_time_median_ms", "batch_load_time_min_ms",
       "batch_load_time_pct", "batch_load_time_stddev_ms",
       "iter_time_avg_ms", "epoch_time_sec", "num_batches"] := by
  refine ⟨?_, ?_, ?_⟩
  · rw [BatchLoadingTimer.get_stats, if_pos h0]
  · rw [BatchLoadingTimer.log_stats, if_pos h0]
  · rw [BatchLoadingTimer.get_stats, if_neg (by omega)]
    rfl

/-- Witness for C9: a timer with an empty meter logs nothing, and one with a
single observed batch produces the nine keys. -/
theorem batchLoadingTimer_empty_guard_witness :
    (BatchLoadingTimer.mk ⟨0, 0, 0, 0, 0, 0⟩ 0 1 0 "train/").log_stats true = [] ∧
    (BatchLoadingTimer.mk ⟨1, 1, 1, 1, 1, 1⟩ 0 1 0 "train/").get_stats.map
        Prod.fst =
      ["batch_load_time_avg_ms", "batch_load_time_max_ms",
       "batch_load_time_median_ms", "batch_load_time_min_ms",
       "batch_load_time_pct", "batch_load_time_stddev_ms",
       "iter_time_avg_ms", "epoch_time_sec", "num_batches"] := by
  have h := batchLoadingTimer_empty_guard
    (BatchLoadingTimer.mk ⟨0, 0, 0, 0, 0, 0⟩ 0 1 0 "train/") true rfl
    (BatchLoadingTimer.mk ⟨1, 1, 1, 1, 1, 1⟩ 0 1 0 "train/") (by decide)
  exact ⟨h.2.1, h.2.2⟩

end Gravitorch
